import Mathlib

/-! Verification of `jest.config.js`.

The repository consists of one module, `jest.config.js`, whose body is a single
assignment of an object literal to `module.exports`.  Two entries of the literal
(`bail` and `verbose`) are computed from `process.env.CI`; every other entry is a
constant.

The embedding below keeps the literal as it is written:

* JavaScript objects whose keys matter (`coverageThreshold`, its scopes,
  `transform`, `moduleNameMapper`) are association lists in source order;
* arrays are lists; numbers are integers (every number in the file is an
  integer literal);
* `process.env` is a list of name/value bindings, and reading a name that is not
  bound gives `none` (JavaScript `undefined`).

In the string literals the characters `{` and `}` of the glob patterns are
written with the escapes `\x7b` and `\x7d`; the strings denoted are the ones of
the source.
-/

namespace QATools

/-! ## Data model -/

/-- The process environment (`process.env`): variable names bound to string values. -/
structure ProcessEnv where
  vars : List (String × String)
deriving DecidableEq, Repr

/-- Reading `process.env.NAME`: the bound string, or `none` when the variable is unset. -/
def ProcessEnv.get (env : ProcessEnv) (name : String) : Option String :=
  List.lookup name env.vars

/-- JavaScript `x === 'lit'` for `x` read from the environment: true only when `x` is
a string that is character for character the literal. -/
def strictEq (x : Option String) (lit : String) : Bool :=
  match x with
  | some s => decide (s = lit)
  | none => false

/-- One scope of `coverageThreshold`: metric name to required percentage. -/
abbrev ThresholdGroup := List (String × Int)

/-- The `coverageThreshold` object: scope name to its metrics. -/
abbrev CoverageThreshold := List (String × ThresholdGroup)

/-- The object assigned to `module.exports`, one field per key of the literal. -/
structure JestConfig where
  testEnvironment : String
  testMatch : List String
  collectCoverage : Bool
  coverageDirectory : String
  collectCoverageFrom : List String
  coverageThreshold : CoverageThreshold
  maxWorkers : String
  coverageReporters : List String
  setupFilesAfterEnv : List String
  transform : List (String × String)
  moduleNameMapper : List (String × String)
  testPathIgnorePatterns : List String
  watchPlugins : List String
  bail : Int
  verbose : Bool
deriving DecidableEq, Repr

/-! ## The module -/

/-- The value of `module.exports` of `jest.config.js` in the environment `env`. -/
def moduleExports (env : ProcessEnv) : JestConfig where
  testEnvironment := "node"
  testMatch := [
    "**/__tests__/**/*.\x7bjs,jsx,ts,tsx\x7d",
    "**/*.\x7btest,spec\x7d.\x7bjs,jsx,ts,tsx\x7d"
  ]
  collectCoverage := true
  coverageDirectory := "coverage"
  collectCoverageFrom := [
    "src/**/*.\x7bjs,jsx,ts,tsx\x7d",
    "!src/**/*.d.ts",
    "!src/**/index.\x7bjs,ts\x7d",
    "!src/**/*.stories.\x7bjs,jsx,ts,tsx\x7d",
    "!src/**/*.config.\x7bjs,ts\x7d",
    "!src/**/node_modules/**"
  ]
  coverageThreshold := [
    ("global", [
      ("statements", 80),
      ("branches", 75),
      ("functions", 80),
      ("lines", 80)
    ]),
    ("./src/core/", [
      ("statements", 90),
      ("branches", 85),
      ("functions", 90),
      ("lines", 90)
    ]),
    ("./src/security/", [
      ("statements", 95),
      ("branches", 90),
      ("functions", 95),
      ("lines", 95)
    ])
  ]
  maxWorkers := "50%"
  coverageReporters := [
    "text",
    "text-summary",
    "lcov",
    "html",
    "json-summary"
  ]
  setupFilesAfterEnv := ["<rootDir>/tests/setup.js"]
  transform := [
    ("^.+\\.(js|jsx|ts|tsx)$", "babel-jest")
  ]
  moduleNameMapper := [
    ("^@/(.*)$", "<rootDir>/src/$1"),
    ("^@test/(.*)$", "<rootDir>/tests/$1")
  ]
  testPathIgnorePatterns := [
    "/node_modules/",
    "/build/",
    "/dist/",
    "/.cache/"
  ]
  watchPlugins := [
    "jest-watch-typeahead/filename",
    "jest-watch-typeahead/testname"
  ]
  bail := if strictEq (env.get "CI") "true" then 1 else 0
  verbose := strictEq (env.get "CI") "true"

/-! ## Vocabulary of the properties -/

/-- The names of the scopes of a `coverageThreshold` object, in source order. -/
def scopeNames (thr : CoverageThreshold) : List String :=
  thr.map Prod.fst

/-- The names of the metrics of one scope, in source order. -/
def metricNames (g : ThresholdGroup) : List String :=
  g.map Prod.fst

/-- The threshold a `coverageThreshold` object gives for a metric of a scope
(JavaScript `thr[scope][metric]`), or `none` when the scope or the metric is not
defined. -/
def thresholdOf (thr : CoverageThreshold) (scope metric : String) : Option Int :=
  (List.lookup scope thr).bind (List.lookup metric)

/-- A glob pattern without its leading `!` negation marker, when it has one. -/
def stripNegation (p : String) : String :=
  if p.front = '!' then p.drop 1 else p

/-- An environment of a CI run: `CI` is the string `true`. -/
def envCI : ProcessEnv := ⟨[("HOME", "/root"), ("CI", "true")]⟩

/-- An environment of a developer machine: `CI` is unset. -/
def envLocal : ProcessEnv := ⟨[("HOME", "/home/dev")]⟩

/-! ## Theorems -/

/-- The `coverageThreshold` entry is the same in every environment: it is the one
resolved in the empty environment. -/
theorem coverageThreshold_const (env : ProcessEnv) :
    (moduleExports env).coverageThreshold = (moduleExports ⟨[]⟩).coverageThreshold :=
  rfl

/-- C1: in every environment, when `CI` is exactly the string `true` the resolved
`bail` is 1 and `verbose` is true; when `CI` is unset or is any other string,
`bail` is 0 and `verbose` is false. -/
theorem ci_toggles_bail_and_verbose (env : ProcessEnv) :
    (env.get "CI" = some "true" →
      (moduleExports env).bail = 1 ∧ (moduleExports env).verbose = true) ∧
    (env.get "CI" ≠ some "true" →
      (moduleExports env).bail = 0 ∧ (moduleExports env).verbose = false) := by
  constructor
  · intro h
    simp [moduleExports, strictEq, h]
  · intro h
    cases hci : env.get "CI" with
    | none => simp [moduleExports, strictEq, hci]
    | some s =>
      have hs : s ≠ "true" := fun e => h (by rw [hci, e])
      simp [moduleExports, strictEq, hci, hs]

/-- Witness of C1: a CI environment resolves to `bail = 1`, `verbose = true`, and
the environments with `CI` unset, `TRUE`, `1`, empty or `false` resolve to
`bail = 0`, `verbose = false`. -/
theorem ci_toggles_bail_and_verbose_witness :
    ((moduleExports envCI).bail = 1 ∧ (moduleExports envCI).verbose = true) ∧
    ((moduleExports envLocal).bail = 0 ∧ (moduleExports envLocal).verbose = false) ∧
    ((moduleExports ⟨[("CI", "TRUE")]⟩).bail = 0 ∧
      (moduleExports ⟨[("CI", "TRUE")]⟩).verbose = false) ∧
    ((moduleExports ⟨[("CI", "1")]⟩).bail = 0 ∧
      (moduleExports ⟨[("CI", "1")]⟩).verbose = false) ∧
    ((moduleExports ⟨[("CI", "")]⟩).bail = 0 ∧
      (moduleExports ⟨[("CI", "")]⟩).verbose = false) ∧
    ((moduleExports ⟨[("CI", "false")]⟩).bail = 0 ∧
      (moduleExports ⟨[("CI", "false")]⟩).verbose = false) :=
  ⟨(ci_toggles_bail_and_verbose envCI).1 (by decide),
   (ci_toggles_bail_and_verbose envLocal).2 (by decide),
   (ci_toggles_bail_and_verbose ⟨[("CI", "TRUE")]⟩).2 (by decide),
   (ci_toggles_bail_and_verbose ⟨[("CI", "1")]⟩).2 (by decide),
   (ci_toggles_bail_and_verbose ⟨[("CI", "")]⟩).2 (by decide),
   (ci_toggles_bail_and_verbose ⟨[("CI", "false")]⟩).2 (by decide)⟩

/-- C2: in every environment the scopes of `coverageThreshold` are `global`,
`./src/core/` and `./src/security/`, and for every scope and every metric of that
scope the threshold value `v` satisfies `0 ≤ v ≤ 100`. -/
theorem thresholds_within_percentage_range (env : ProcessEnv)
    (scope : String) (g : ThresholdGroup) (metric : String) (v : Int)
    (hscope : (scope, g) ∈ (moduleExports env).coverageThreshold)
    (hmetric : (metric, v) ∈ g) :
    scope ∈ ["global", "./src/core/", "./src/security/"] ∧
    metric ∈ ["statements", "branches", "functions", "lines"] ∧
    0 ≤ v ∧ v ≤ 100 := by
  simp only [moduleExports, List.mem_cons, List.mem_singleton, List.not_mem_nil, or_false,
    Prod.mk.injEq] at hscope
  rcases hscope with ⟨rfl, rfl⟩ | ⟨rfl, rfl⟩ | ⟨rfl, rfl⟩ <;>
    simp only [List.mem_cons, List.mem_singleton, List.not_mem_nil, or_false,
      Prod.mk.injEq] at hmetric <;>
    rcases hmetric with ⟨rfl, rfl⟩ | ⟨rfl, rfl⟩ | ⟨rfl, rfl⟩ | ⟨rfl, rfl⟩ <;>
    decide

/-- Witness of C2: the branches threshold 90 of the `./src/security/` scope is an
entry of the document and lies between 0 and 100. -/
theorem thresholds_within_percentage_range_witness :
    "./src/security/" ∈ ["global", "./src/core/", "./src/security/"] ∧
    "branches" ∈ ["statements", "branches", "functions", "lines"] ∧
    (0 : Int) ≤ 90 ∧ (90 : Int) ≤ 100 :=
  thresholds_within_percentage_range envLocal "./src/security/"
    [("statements", 95), ("branches", 90), ("functions", 95), ("lines", 95)]
    "branches" 90 (by decide) (by decide)

/-- C3: in every environment the `coverageThreshold` mapping of the resolved
document has an entry under the key `global`, and that entry defines the four
metrics statements, branches, functions and lines. -/
theorem global_scope_present (env : ProcessEnv) :
    ∃ g : ThresholdGroup,
      List.lookup "global" (moduleExports env).coverageThreshold = some g ∧
      (List.lookup "statements" g).isSome = true ∧
      (List.lookup "branches" g).isSome = true ∧
      (List.lookup "functions" g).isSome = true ∧
      (List.lookup "lines" g).isSome = true ∧
      metricNames g = ["statements", "branches", "functions", "lines"] :=
  ⟨[("statements", 80), ("branches", 75), ("functions", 80), ("lines", 80)],
    by rw [coverageThreshold_const]; decide,
    by decide, by decide, by decide, by decide, by decide⟩

/-- C4: in every environment the global coverage thresholds of the resolved
document read exactly statements = 80, branches = 75, functions = 80 and
lines = 80. -/
theorem global_thresholds_exact (env : ProcessEnv) :
    ((List.lookup "global" (moduleExports env).coverageThreshold).bind
      (List.lookup "statements")) = some 80 ∧
    ((List.lookup "global" (moduleExports env).coverageThreshold).bind
      (List.lookup "branches")) = some 75 ∧
    ((List.lookup "global" (moduleExports env).coverageThreshold).bind
      (List.lookup "functions")) = some 80 ∧
    ((List.lookup "global" (moduleExports env).coverageThreshold).bind
      (List.lookup "lines")) = some 80 := by
  rw [coverageThreshold_const]
  decide

/-- C6: construction is deterministic.  Two environments that give the same value,
or the same absence, of the `CI` variable resolve to equal documents. -/
theorem construction_deterministic (env₁ env₂ : ProcessEnv)
    (hci : env₁.get "CI" = env₂.get "CI") :
    moduleExports env₁ = moduleExports env₂ := by
  simp only [moduleExports, hci]

/-- Witness of C6: two different environments that both bind `CI` to `true`
resolve to equal documents. -/
theorem construction_deterministic_witness :
    envCI ≠ ⟨[("CI", "true"), ("PATH", "/usr/bin")]⟩ ∧
    moduleExports envCI = moduleExports ⟨[("CI", "true"), ("PATH", "/usr/bin")]⟩ :=
  ⟨by decide,
    construction_deterministic envCI ⟨[("CI", "true"), ("PATH", "/usr/bin")]⟩ (by decide)⟩

/-- The three pattern lists are the same in every environment. -/
theorem patterns_const (env : ProcessEnv) :
    (moduleExports env).testMatch = (moduleExports ⟨[]⟩).testMatch ∧
    (moduleExports env).collectCoverageFrom = (moduleExports ⟨[]⟩).collectCoverageFrom ∧
    (moduleExports env).testPathIgnorePatterns =
      (moduleExports ⟨[]⟩).testPathIgnorePatterns :=
  ⟨rfl, rfl, rfl⟩

/-- C7: in every environment each of the pattern lists `testMatch`,
`collectCoverageFrom` and `testPathIgnorePatterns` is a non-empty list whose
patterns are all non-empty strings, and every `collectCoverageFrom` pattern is
still non-empty once a leading `!` is removed. -/
theorem glob_patterns_nonempty (env : ProcessEnv) :
    ((moduleExports env).testMatch ≠ [] ∧
      ∀ p ∈ (moduleExports env).testMatch, p ≠ "") ∧
    ((moduleExports env).collectCoverageFrom ≠ [] ∧
      ∀ p ∈ (moduleExports env).collectCoverageFrom, p ≠ "" ∧ stripNegation p ≠ "") ∧
    ((moduleExports env).testPathIgnorePatterns ≠ [] ∧
      ∀ p ∈ (moduleExports env).testPathIgnorePatterns, p ≠ "") := by
  obtain ⟨h₁, h₂, h₃⟩ := patterns_const env
  rw [h₁, h₂, h₃]
  decide

/-- C8: critical paths require higher coverage.  In every environment the scopes
of `coverageThreshold` are `global`, `./src/core/` and `./src/security/`; each of
the two directory scopes defines each of the metrics statements, branches,
functions and lines with a threshold strictly greater than the global threshold
of the same metric; and every entry of every scope other than `global` is for
one of the four metrics and is strictly greater than the global threshold of
that metric. -/
theorem critical_scopes_above_global (env : ProcessEnv) :
    scopeNames (moduleExports env).coverageThreshold =
      ["global", "./src/core/", "./src/security/"] ∧
    (∀ scope ∈ ["./src/core/", "./src/security/"],
      ∀ metric ∈ ["statements", "branches", "functions", "lines"],
        ∃ v gv : Int,
          thresholdOf (moduleExports env).coverageThreshold scope metric = some v ∧
          thresholdOf (moduleExports env).coverageThreshold "global" metric = some gv ∧
          gv < v) ∧
    (∀ (scope : String) (g : ThresholdGroup) (metric : String) (v : Int),
      (scope, g) ∈ (moduleExports env).coverageThreshold →
      scope ≠ "global" →
      (metric, v) ∈ g →
        metric ∈ ["statements", "branches", "functions", "lines"] ∧
        ∃ gv : Int,
          thresholdOf (moduleExports env).coverageThreshold "global" metric = some gv ∧
          gv < v) := by
  rw [coverageThreshold_const]
  refine ⟨by decide, ?_, ?_⟩
  · intro scope hscope metric hmetric
    simp only [List.mem_cons, List.mem_singleton, List.not_mem_nil, or_false] at hscope hmetric
    rcases hscope with rfl | rfl <;> rcases hmetric with rfl | rfl | rfl | rfl
    · exact ⟨90, 80, by decide, by decide, by decide⟩
    · exact ⟨85, 75, by decide, by decide, by decide⟩
    · exact ⟨90, 80, by decide, by decide, by decide⟩
    · exact ⟨90, 80, by decide, by decide, by decide⟩
    · exact ⟨95, 80, by decide, by decide, by decide⟩
    · exact ⟨90, 75, by decide, by decide, by decide⟩
    · exact ⟨95, 80, by decide, by decide, by decide⟩
    · exact ⟨95, 80, by decide, by decide, by decide⟩
  · intro scope g metric v hscope hdir hmetric
    simp only [moduleExports, List.mem_cons, List.mem_singleton, List.not_mem_nil, or_false,
      Prod.mk.injEq] at hscope
    rcases hscope with ⟨rfl, rfl⟩ | ⟨rfl, rfl⟩ | ⟨rfl, rfl⟩
    · exact absurd rfl hdir
    all_goals
      simp only [List.mem_cons, List.mem_singleton, List.not_mem_nil, or_false,
        Prod.mk.injEq] at hmetric
      rcases hmetric with ⟨rfl, rfl⟩ | ⟨rfl, rfl⟩ | ⟨rfl, rfl⟩ | ⟨rfl, rfl⟩
    · exact ⟨by decide, 80, by decide, by decide⟩
    · exact ⟨by decide, 75, by decide, by decide⟩
    · exact ⟨by decide, 80, by decide, by decide⟩
    · exact ⟨by decide, 80, by decide, by decide⟩
    · exact ⟨by decide, 80, by decide, by decide⟩
    · exact ⟨by decide, 75, by decide, by decide⟩
    · exact ⟨by decide, 80, by decide, by decide⟩
    · exact ⟨by decide, 80, by decide, by decide⟩

/-- Witness of C8: in a CI environment the `./src/security/` scope defines a
branches threshold, the global scope defines one too, and the former is the
greater. -/
theorem critical_scopes_above_global_witness :
    ∃ v gv : Int,
      thresholdOf (moduleExports envCI).coverageThreshold "./src/security/" "branches" =
        some v ∧
      thresholdOf (moduleExports envCI).coverageThreshold "global" "branches" = some gv ∧
      gv < v :=
  (critical_scopes_above_global envCI).2.1 "./src/security/" (by decide) "branches"
    (by decide)

/-- C9, the code at the failing entry: in a CI environment the statements,
functions and lines thresholds of the `./src/security/` scope are 95, while its
branches threshold is 90, which is not at least 95. -/
theorem security_branches_below_95 :
    thresholdOf (moduleExports envCI).coverageThreshold "./src/security/" "statements" =
      some 95 ∧
    thresholdOf (moduleExports envCI).coverageThreshold "./src/security/" "functions" =
      some 95 ∧
    thresholdOf (moduleExports envCI).coverageThreshold "./src/security/" "lines" =
      some 95 ∧
    thresholdOf (moduleExports envCI).coverageThreshold "./src/security/" "branches" =
      some 90 ∧
    ¬ ((95 : Int) ≤ 90) :=
  ⟨by decide, by decide, by decide, by decide, by decide⟩

/-- C10: only `bail` and `verbose` depend on the environment.  For every two
environments, every other field of the resolved document is equal in the two
documents; coverage collection is enabled in both and the thresholds are the
same. -/
theorem environment_frame (env₁ env₂ : ProcessEnv) :
    (moduleExports env₁).testEnvironment = (moduleExports env₂).testEnvironment ∧
    (moduleExports env₁).testMatch = (moduleExports env₂).testMatch ∧
    (moduleExports env₁).collectCoverage = (moduleExports env₂).collectCoverage ∧
    (moduleExports env₁).coverageDirectory = (moduleExports env₂).coverageDirectory ∧
    (moduleExports env₁).collectCoverageFrom = (moduleExports env₂).collectCoverageFrom ∧
    (moduleExports env₁).coverageThreshold = (moduleExports env₂).coverageThreshold ∧
    (moduleExports env₁).maxWorkers = (moduleExports env₂).maxWorkers ∧
    (moduleExports env₁).coverageReporters = (moduleExports env₂).coverageReporters ∧
    (moduleExports env₁).setupFilesAfterEnv = (moduleExports env₂).setupFilesAfterEnv ∧
    (moduleExports env₁).transform = (moduleExports env₂).transform ∧
    (moduleExports env₁).moduleNameMapper = (moduleExports env₂).moduleNameMapper ∧
    (moduleExports env₁).testPathIgnorePatterns =
      (moduleExports env₂).testPathIgnorePatterns ∧
    (moduleExports env₁).watchPlugins = (moduleExports env₂).watchPlugins ∧
    (moduleExports env₁).collectCoverage = true ∧
    { moduleExports env₁ with
        bail := (moduleExports env₂).bail
        verbose := (moduleExports env₂).verbose } = moduleExports env₂ :=
  ⟨rfl, rfl, rfl, rfl, rfl, rfl, rfl, rfl, rfl, rfl, rfl, rfl, rfl, rfl, rfl⟩

end QATools
